import Mathlib

/-!
Shallow embedding of the menfem-vercel relational content & membership store
(declared in `prisma/schema.prisma`) and of the static route table
(`src/paths.ts`).

Each Prisma model becomes a Lean structure whose fields mirror the model's
columns (`DateTime` as `Nat` timestamps, nullable columns as `Option`).
The store is the collection of all table contents; the store operations
implement exactly the constraints the schema declares:

* `@unique` / `@@unique` columns: a colliding insert fails with
  `UniqueConstraintViolation` (nullable unique columns collide only when
  both values are present, as in PostgreSQL).
* required relations (`fields: [...] references: [...]`): an insert whose
  target row is missing fails with `ForeignKeyViolation`.
* `onDelete: Cascade` relations delete the dependent rows with the parent.
* `onDelete: SetNull` relations null the dependent foreign key and keep
  the row (`NewsletterSubscription.user`).
* required relations without an `onDelete` action use Prisma's default for
  required relations on PostgreSQL, `Restrict`: deleting a still-referenced
  parent fails with `ForeignKeyViolation` (`Article.author`,
  `Article.category`).
* `@default(...)` column defaults are applied when the create input omits
  the column (`EventRsvp.status`, `MembershipSubscription.status`).
* `@updatedAt` columns are set to the current time on every successful
  update.
-/

namespace Menfem

/-- Error taxonomy of the store (spec §7). -/
inductive DbError where
  | NotFound
  | UniqueConstraintViolation
  | ForeignKeyViolation
deriving DecidableEq, Repr

/-- `enum RsvpStatus` (schema.prisma lines 245-249). -/
inductive RsvpStatus where
  | CONFIRMED
  | WAITLISTED
  | CANCELLED
deriving DecidableEq, Repr

/-- `enum SubscriptionStatus` (schema.prisma lines 251-256). -/
inductive SubscriptionStatus where
  | ACTIVE
  | INACTIVE
  | CANCELLED
  | PAST_DUE
deriving DecidableEq, Repr

/-- `model User` (schema.prisma lines 12-31). -/
structure User where
  id : String
  email : String
  username : Option String
  passwordHash : String
  emailVerified : Bool
  createdAt : Nat
  updatedAt : Nat
deriving DecidableEq, Repr

/-- `model Session` (schema.prisma lines 34-43): `user` relation has
`onDelete: Cascade`. -/
structure Session where
  id : String
  userId : String
  expiresAt : Nat
deriving DecidableEq, Repr

/-- `model EmailVerificationToken` (schema.prisma lines 46-56): `userId`
is stored but no relation to `User` is declared. -/
structure EmailVerificationToken where
  id : String
  token : String
  email : String
  userId : String
  expiresAt : Nat
  createdAt : Nat
deriving DecidableEq, Repr

/-- `model PasswordResetToken` (schema.prisma lines 59-69): `userId` is
stored but no relation to `User` is declared. -/
structure PasswordResetToken where
  id : String
  token : String
  email : String
  userId : String
  expiresAt : Nat
  createdAt : Nat
deriving DecidableEq, Repr

/-- `model Article` (schema.prisma lines 72-106): `author` and `category`
are required relations with no `onDelete` action (default `Restrict`). -/
structure Article where
  id : String
  slug : String
  title : String
  subtitle : Option String
  content : String
  excerpt : String
  coverImage : Option String
  readingTime : Int
  isPremium : Bool
  isPublished : Bool
  publishedAt : Option Nat
  viewCount : Int
  createdAt : Nat
  updatedAt : Nat
  metaTitle : Option String
  metaDescription : Option String
  authorId : String
  categoryId : String
deriving DecidableEq, Repr

/-- `model Category` (schema.prisma lines 109-120). -/
structure Category where
  id : String
  name : String
  slug : String
  description : Option String
  color : Option String
  order : Int
deriving DecidableEq, Repr

/-- `model Tag` (schema.prisma lines 123-131). -/
structure Tag where
  id : String
  name : String
  slug : String
deriving DecidableEq, Repr

/-- `model ArticleTag` (schema.prisma lines 134-143): composite id
`(articleId, tagId)`, both relations `onDelete: Cascade`. -/
structure ArticleTag where
  articleId : String
  tagId : String
deriving DecidableEq, Repr

/-- `model SavedArticle` (schema.prisma lines 146-156): composite id
`(userId, articleId)`, both relations `onDelete: Cascade`. -/
structure SavedArticle where
  userId : String
  articleId : String
  savedAt : Nat
deriving DecidableEq, Repr

/-- `model Comment` (schema.prisma lines 159-174): both relations
`onDelete: Cascade`. -/
structure Comment where
  id : String
  content : String
  createdAt : Nat
  updatedAt : Nat
  userId : String
  articleId : String
deriving DecidableEq, Repr

/-- `model NewsletterSubscription` (schema.prisma lines 177-190): `user`
relation is optional with `onDelete: SetNull`. -/
structure NewsletterSubscription where
  id : String
  email : String
  userId : Option String
  isActive : Bool
  subscribedAt : Nat
  unsubscribedAt : Option Nat
  confirmationToken : Option String
deriving DecidableEq, Repr

/-- `model Event` (schema.prisma lines 193-210). -/
structure Event where
  id : String
  title : String
  description : String
  location : String
  startDate : Nat
  endDate : Nat
  capacity : Option Int
  imageUrl : Option String
  isPublished : Bool
  createdAt : Nat
  updatedAt : Nat
deriving DecidableEq, Repr

/-- `model EventRsvp` (schema.prisma lines 213-225): `@@unique([userId,
eventId])`, both relations `onDelete: Cascade`, `status` defaults to
`CONFIRMED`. -/
structure EventRsvp where
  id : String
  userId : String
  eventId : String
  status : RsvpStatus
  createdAt : Nat
deriving DecidableEq, Repr

/-- `model MembershipSubscription` (schema.prisma lines 228-242): unique
`userId`, unique-when-present `stripeCustomerId` and `stripeSubId`, `user`
relation `onDelete: Cascade`, `status` defaults to `INACTIVE`. -/
structure MembershipSubscription where
  id : String
  userId : String
  stripeCustomerId : Option String
  stripeSubId : Option String
  status : SubscriptionStatus
  currentPeriodEnd : Option Nat
  cancelledAt : Option Nat
  createdAt : Nat
  updatedAt : Nat
deriving DecidableEq, Repr

/-- The whole relational store: one list of rows per table of
schema.prisma, in insertion order. -/
structure Store where
  users : List User
  sessions : List Session
  emailVerificationTokens : List EmailVerificationToken
  passwordResetTokens : List PasswordResetToken
  articles : List Article
  categories : List Category
  tags : List Tag
  articleTags : List ArticleTag
  savedArticles : List SavedArticle
  comments : List Comment
  newsletterSubscriptions : List NewsletterSubscription
  events : List Event
  eventRsvps : List EventRsvp
  membershipSubscriptions : List MembershipSubscription
deriving DecidableEq, Repr

/-- The empty store. -/
def Store.empty : Store :=
  ⟨[], [], [], [], [], [], [], [], [], [], [], [], [], []⟩

/-! ### Create operations

Each create checks the model's unique constraints first, then its required
relation targets, then appends the row. Nullable unique columns collide
only when both sides are present. -/

/-- Create a `User`: unique `id`, `email`, and (when present) `username`. -/
def createUser (s : Store) (u : User) : Except DbError Store :=
  if s.users.any (fun r => r.id == u.id || r.email == u.email
      || (u.username.isSome && r.username == u.username)) then
    .error .UniqueConstraintViolation
  else
    .ok { s with users := s.users ++ [u] }

/-- Create a `Session`: unique `id`; required relation `userId → User`
(`onDelete: Cascade`). -/
def createSession (s : Store) (r : Session) : Except DbError Store :=
  if s.sessions.any (fun x => x.id == r.id) then
    .error .UniqueConstraintViolation
  else if !(s.users.any (fun u => u.id == r.userId)) then
    .error .ForeignKeyViolation
  else
    .ok { s with sessions := s.sessions ++ [r] }

/-- Create an `EmailVerificationToken`: unique `id` and `token`; `userId`
has no declared relation, so no foreign-key check. -/
def createEmailVerificationToken (s : Store) (r : EmailVerificationToken) :
    Except DbError Store :=
  if s.emailVerificationTokens.any (fun x => x.id == r.id || x.token == r.token) then
    .error .UniqueConstraintViolation
  else
    .ok { s with emailVerificationTokens := s.emailVerificationTokens ++ [r] }

/-- Create a `PasswordResetToken`: unique `id` and `token`; `userId` has
no declared relation, so no foreign-key check. -/
def createPasswordResetToken (s : Store) (r : PasswordResetToken) :
    Except DbError Store :=
  if s.passwordResetTokens.any (fun x => x.id == r.id || x.token == r.token) then
    .error .UniqueConstraintViolation
  else
    .ok { s with passwordResetTokens := s.passwordResetTokens ++ [r] }

/-- Create an `Article`: unique `id` and `slug`; required relations
`authorId → User` and `categoryId → Category`. -/
def createArticle (s : Store) (a : Article) : Except DbError Store :=
  if s.articles.any (fun x => x.id == a.id || x.slug == a.slug) then
    .error .UniqueConstraintViolation
  else if !(s.users.any (fun u => u.id == a.authorId)) then
    .error .ForeignKeyViolation
  else if !(s.categories.any (fun c => c.id == a.categoryId)) then
    .error .ForeignKeyViolation
  else
    .ok { s with articles := s.articles ++ [a] }

/-- Create a `Category`: unique `id`, `name` and `slug`. -/
def createCategory (s : Store) (c : Category) : Except DbError Store :=
  if s.categories.any (fun x => x.id == c.id || x.name == c.name || x.slug == c.slug) then
    .error .UniqueConstraintViolation
  else
    .ok { s with categories := s.categories ++ [c] }

/-- Create a `Tag`: unique `id`, `name` and `slug`. -/
def createTag (s : Store) (t : Tag) : Except DbError Store :=
  if s.tags.any (fun x => x.id == t.id || x.name == t.name || x.slug == t.slug) then
    .error .UniqueConstraintViolation
  else
    .ok { s with tags := s.tags ++ [t] }

/-- Create an `ArticleTag`: composite id `(articleId, tagId)`; required
relations to `Article` and `Tag`. -/
def createArticleTag (s : Store) (r : ArticleTag) : Except DbError Store :=
  if s.articleTags.any (fun x => x.articleId == r.articleId && x.tagId == r.tagId) then
    .error .UniqueConstraintViolation
  else if !(s.articles.any (fun a => a.id == r.articleId)) then
    .error .ForeignKeyViolation
  else if !(s.tags.any (fun t => t.id == r.tagId)) then
    .error .ForeignKeyViolation
  else
    .ok { s with articleTags := s.articleTags ++ [r] }

/-- Create a `SavedArticle`: composite id `(userId, articleId)`; required
relations to `User` and `Article`. -/
def createSavedArticle (s : Store) (r : SavedArticle) : Except DbError Store :=
  if s.savedArticles.any (fun x => x.userId == r.userId && x.articleId == r.articleId) then
    .error .UniqueConstraintViolation
  else if !(s.users.any (fun u => u.id == r.userId)) then
    .error .ForeignKeyViolation
  else if !(s.articles.any (fun a => a.id == r.articleId)) then
    .error .ForeignKeyViolation
  else
    .ok { s with savedArticles := s.savedArticles ++ [r] }

/-- Create a `Comment`: unique `id`; required relations to `User` and
`Article`. -/
def createComment (s : Store) (c : Comment) : Except DbError Store :=
  if s.comments.any (fun x => x.id == c.id) then
    .error .UniqueConstraintViolation
  else if !(s.users.any (fun u => u.id == c.userId)) then
    .error .ForeignKeyViolation
  else if !(s.articles.any (fun a => a.id == c.articleId)) then
    .error .ForeignKeyViolation
  else
    .ok { s with comments := s.comments ++ [c] }

/-- Create a `NewsletterSubscription`: unique `id`, `email` and (when
present) `confirmationToken`; optional relation `userId → User`. -/
def createNewsletterSubscription (s : Store) (n : NewsletterSubscription) :
    Except DbError Store :=
  if s.newsletterSubscriptions.any (fun x => x.id == n.id || x.email == n.email
      || (n.confirmationToken.isSome && x.confirmationToken == n.confirmationToken)) then
    .error .UniqueConstraintViolation
  else if n.userId.isSome && !(s.users.any (fun u => some u.id == n.userId)) then
    .error .ForeignKeyViolation
  else
    .ok { s with newsletterSubscriptions := s.newsletterSubscriptions ++ [n] }

/-- Create an `Event`: unique `id`. -/
def createEvent (s : Store) (e : Event) : Except DbError Store :=
  if s.events.any (fun x => x.id == e.id) then
    .error .UniqueConstraintViolation
  else
    .ok { s with events := s.events ++ [e] }

/-- Create input for `EventRsvp`: `status` may be omitted, in which case
the schema default `CONFIRMED` applies (schema.prisma line 217). -/
structure EventRsvpCreateInput where
  id : String
  userId : String
  eventId : String
  status : Option RsvpStatus
  createdAt : Nat
deriving DecidableEq, Repr

/-- The `EventRsvp` row stored for a create input: the schema default
`CONFIRMED` fills an omitted `status`. -/
def EventRsvpCreateInput.row (i : EventRsvpCreateInput) : EventRsvp :=
  ⟨i.id, i.userId, i.eventId, i.status.getD RsvpStatus.CONFIRMED, i.createdAt⟩

/-- Create an `EventRsvp`: unique `id` and `@@unique([userId, eventId])`;
required relations to `User` and `Event`. -/
def createEventRsvp (s : Store) (i : EventRsvpCreateInput) : Except DbError Store :=
  if s.eventRsvps.any (fun x => x.id == i.id
      || (x.userId == i.userId && x.eventId == i.eventId)) then
    .error .UniqueConstraintViolation
  else if !(s.users.any (fun u => u.id == i.userId)) then
    .error .ForeignKeyViolation
  else if !(s.events.any (fun e => e.id == i.eventId)) then
    .error .ForeignKeyViolation
  else
    .ok { s with eventRsvps := s.eventRsvps ++ [i.row] }

/-- Create input for `MembershipSubscription`: `status` may be omitted, in
which case the schema default `INACTIVE` applies (schema.prisma line 233). -/
structure MembershipSubscriptionCreateInput where
  id : String
  userId : String
  stripeCustomerId : Option String
  stripeSubId : Option String
  status : Option SubscriptionStatus
  currentPeriodEnd : Option Nat
  cancelledAt : Option Nat
  createdAt : Nat
  updatedAt : Nat
deriving DecidableEq, Repr

/-- The `MembershipSubscription` row stored for a create input: the schema
default `INACTIVE` fills an omitted `status`. -/
def MembershipSubscriptionCreateInput.row (i : MembershipSubscriptionCreateInput) :
    MembershipSubscription :=
  ⟨i.id, i.userId, i.stripeCustomerId, i.stripeSubId,
   i.status.getD SubscriptionStatus.INACTIVE, i.currentPeriodEnd, i.cancelledAt,
   i.createdAt, i.updatedAt⟩

/-- Create a `MembershipSubscription`: unique `id`, `userId`, and (when
present) `stripeCustomerId` and `stripeSubId`; required relation
`userId → User`. -/
def createMembershipSubscription (s : Store) (i : MembershipSubscriptionCreateInput) :
    Except DbError Store :=
  if s.membershipSubscriptions.any (fun x => x.id == i.id || x.userId == i.userId
      || (i.stripeCustomerId.isSome && x.stripeCustomerId == i.stripeCustomerId)
      || (i.stripeSubId.isSome && x.stripeSubId == i.stripeSubId)) then
    .error .UniqueConstraintViolation
  else if !(s.users.any (fun u => u.id == i.userId)) then
    .error .ForeignKeyViolation
  else
    .ok { s with membershipSubscriptions := s.membershipSubscriptions ++ [i.row] }

/-! ### Delete operations -/

/-- Delete a `User`.

`Article.author` is a required relation declared without an `onDelete`
action (schema.prisma line 91), so Prisma's default for required relations
on PostgreSQL — `Restrict` — applies: a user who still authors articles
cannot be deleted. Otherwise the declared referential actions run:
`Session`, `SavedArticle`, `Comment`, `EventRsvp` and
`MembershipSubscription` rows of the user cascade away, and every
`NewsletterSubscription` pointing at the user keeps its row with `userId`
set to null (`onDelete: SetNull`). `EmailVerificationToken` and
`PasswordResetToken` declare no relation to `User`, so they are untouched. -/
def deleteUser (s : Store) (uid : String) : Except DbError Store :=
  if !(s.users.any (fun u => u.id == uid)) then
    .error .NotFound
  else if s.articles.any (fun a => a.authorId == uid) then
    .error .ForeignKeyViolation
  else
    .ok { s with
      users := s.users.filter (fun u => u.id != uid),
      sessions := s.sessions.filter (fun r => r.userId != uid),
      savedArticles := s.savedArticles.filter (fun r => r.userId != uid),
      comments := s.comments.filter (fun r => r.userId != uid),
      eventRsvps := s.eventRsvps.filter (fun r => r.userId != uid),
      membershipSubscriptions :=
        s.membershipSubscriptions.filter (fun r => r.userId != uid),
      newsletterSubscriptions := s.newsletterSubscriptions.map (fun n =>
        if n.userId == some uid then { n with userId := none } else n) }

/-- Delete an `Article`: its `ArticleTag`, `SavedArticle` and `Comment`
rows all declare `onDelete: Cascade` on their article relation, so they
are removed with it; no other table references `Article`. -/
def deleteArticle (s : Store) (aid : String) : Except DbError Store :=
  if !(s.articles.any (fun a => a.id == aid)) then
    .error .NotFound
  else
    .ok { s with
      articles := s.articles.filter (fun a => a.id != aid),
      articleTags := s.articleTags.filter (fun r => r.articleId != aid),
      savedArticles := s.savedArticles.filter (fun r => r.articleId != aid),
      comments := s.comments.filter (fun r => r.articleId != aid) }

/-- Delete a `Category`. `Article.category` is a required relation with no
`onDelete` action (schema.prisma line 95), so the default `Restrict`
applies: deleting a category still referenced by an article fails with
`ForeignKeyViolation`. -/
def deleteCategory (s : Store) (cid : String) : Except DbError Store :=
  if !(s.categories.any (fun c => c.id == cid)) then
    .error .NotFound
  else if s.articles.any (fun a => a.categoryId == cid) then
    .error .ForeignKeyViolation
  else
    .ok { s with categories := s.categories.filter (fun c => c.id != cid) }

/-- Delete a `Tag`: its `ArticleTag` rows cascade
(`onDelete: Cascade` on `ArticleTag.tag`). -/
def deleteTag (s : Store) (tid : String) : Except DbError Store :=
  if !(s.tags.any (fun t => t.id == tid)) then
    .error .NotFound
  else
    .ok { s with
      tags := s.tags.filter (fun t => t.id != tid),
      articleTags := s.articleTags.filter (fun r => r.tagId != tid) }

/-- Delete an `Event`: its `EventRsvp` rows cascade
(`onDelete: Cascade` on `EventRsvp.event`). -/
def deleteEvent (s : Store) (eid : String) : Except DbError Store :=
  if !(s.events.any (fun e => e.id == eid)) then
    .error .NotFound
  else
    .ok { s with
      events := s.events.filter (fun e => e.id != eid),
      eventRsvps := s.eventRsvps.filter (fun r => r.eventId != eid) }

/-! ### Update operations

An update is keyed by the row's identity; the caller's mutation `f` is
applied to the found row, with the identity and `createdAt` preserved and
the `@updatedAt` column (where the model declares one) set to the current
time `now`. Unique columns of the mutated row are re-checked against the
other rows. -/

/-- Update a `User` (`updatedAt` is `@updatedAt`, schema.prisma line 19). -/
def updateUser (s : Store) (uid : String) (f : User → User) (now : Nat) :
    Except DbError Store :=
  match s.users.find? (fun u => u.id == uid) with
  | none => .error .NotFound
  | some u =>
    let u' : User := { f u with id := u.id, createdAt := u.createdAt, updatedAt := now }
    if s.users.any (fun r => r.id != uid && (r.email == u'.email
        || (u'.username.isSome && r.username == u'.username))) then
      .error .UniqueConstraintViolation
    else
      .ok { s with users := s.users.map (fun r => if r.id == uid then u' else r) }

/-- Update an `Article` (`updatedAt` is `@updatedAt`, schema.prisma
line 86). -/
def updateArticle (s : Store) (aid : String) (f : Article → Article) (now : Nat) :
    Except DbError Store :=
  match s.articles.find? (fun a => a.id == aid) with
  | none => .error .NotFound
  | some a =>
    let a' : Article := { f a with id := a.id, createdAt := a.createdAt, updatedAt := now }
    if s.articles.any (fun r => r.id != aid && r.slug == a'.slug) then
      .error .UniqueConstraintViolation
    else if !(s.users.any (fun u => u.id == a'.authorId)) then
      .error .ForeignKeyViolation
    else if !(s.categories.any (fun c => c.id == a'.categoryId)) then
      .error .ForeignKeyViolation
    else
      .ok { s with articles := s.articles.map (fun r => if r.id == aid then a' else r) }

/-- Update a `Comment` (`updatedAt` is `@updatedAt`, schema.prisma
line 163). -/
def updateComment (s : Store) (cid : String) (f : Comment → Comment) (now : Nat) :
    Except DbError Store :=
  match s.comments.find? (fun c => c.id == cid) with
  | none => .error .NotFound
  | some c =>
    let c' : Comment :=
      { f c with
        id := c.id, createdAt := c.createdAt,
        userId := c.userId, articleId := c.articleId,
        updatedAt := now }
    .ok { s with comments := s.comments.map (fun r => if r.id == cid then c' else r) }

/-- Update an `Event` (`updatedAt` is `@updatedAt`, schema.prisma
line 204). -/
def updateEvent (s : Store) (eid : String) (f : Event → Event) (now : Nat) :
    Except DbError Store :=
  match s.events.find? (fun e => e.id == eid) with
  | none => .error .NotFound
  | some e =>
    let e' : Event := { f e with id := e.id, createdAt := e.createdAt, updatedAt := now }
    .ok { s with events := s.events.map (fun r => if r.id == eid then e' else r) }

/-- Update a `MembershipSubscription` (`updatedAt` is `@updatedAt`,
schema.prisma line 237); unique stripe ids are re-checked. -/
def updateMembershipSubscription (s : Store) (mid : String)
    (f : MembershipSubscription → MembershipSubscription) (now : Nat) :
    Except DbError Store :=
  match s.membershipSubscriptions.find? (fun m => m.id == mid) with
  | none => .error .NotFound
  | some m =>
    let m' : MembershipSubscription :=
      { f m with
        id := m.id, userId := m.userId,
        createdAt := m.createdAt, updatedAt := now }
    if s.membershipSubscriptions.any (fun r => r.id != mid
        && ((m'.stripeCustomerId.isSome && r.stripeCustomerId == m'.stripeCustomerId)
          || (m'.stripeSubId.isSome && r.stripeSubId == m'.stripeSubId))) then
      .error .UniqueConstraintViolation
    else
      .ok { s with membershipSubscriptions :=
        s.membershipSubscriptions.map (fun r => if r.id == mid then m' else r) }

/-- Update the `status` of the `EventRsvp` identified by the unique
`(userId, eventId)` pair. `EventRsvp` declares no `@updatedAt` column, so
only `status` changes. -/
def updateEventRsvpStatus (s : Store) (uid eid : String) (v : RsvpStatus) :
    Except DbError Store :=
  if s.eventRsvps.any (fun r => r.userId == uid && r.eventId == eid) then
    .ok { s with eventRsvps := s.eventRsvps.map (fun r =>
      if r.userId == uid && r.eventId == eid then { r with status := v } else r) }
  else
    .error .NotFound

/-! ### The operation alphabet

`Op` enumerates every store operation defined above; `applyOp` dispatches.
A store is reachable when it arises from `Store.empty` by successful
operations. -/

/-- One store operation. -/
inductive Op where
  | opCreateUser (u : User)
  | opCreateSession (r : Session)
  | opCreateEmailVerificationToken (r : EmailVerificationToken)
  | opCreatePasswordResetToken (r : PasswordResetToken)
  | opCreateArticle (a : Article)
  | opCreateCategory (c : Category)
  | opCreateTag (t : Tag)
  | opCreateArticleTag (r : ArticleTag)
  | opCreateSavedArticle (r : SavedArticle)
  | opCreateComment (c : Comment)
  | opCreateNewsletterSubscription (n : NewsletterSubscription)
  | opCreateEvent (e : Event)
  | opCreateEventRsvp (i : EventRsvpCreateInput)
  | opCreateMembershipSubscription (i : MembershipSubscriptionCreateInput)
  | opDeleteUser (uid : String)
  | opDeleteArticle (aid : String)
  | opDeleteCategory (cid : String)
  | opDeleteTag (tid : String)
  | opDeleteEvent (eid : String)
  | opUpdateUser (uid : String) (f : User → User) (now : Nat)
  | opUpdateArticle (aid : String) (f : Article → Article) (now : Nat)
  | opUpdateComment (cid : String) (f : Comment → Comment) (now : Nat)
  | opUpdateEvent (eid : String) (f : Event → Event) (now : Nat)
  | opUpdateMembershipSubscription (mid : String)
      (f : MembershipSubscription → MembershipSubscription) (now : Nat)
  | opUpdateEventRsvpStatus (uid eid : String) (v : RsvpStatus)

/-- Apply one operation to the store. -/
def applyOp (op : Op) (s : Store) : Except DbError Store :=
  match op with
  | .opCreateUser u => createUser s u
  | .opCreateSession r => createSession s r
  | .opCreateEmailVerificationToken r => createEmailVerificationToken s r
  | .opCreatePasswordResetToken r => createPasswordResetToken s r
  | .opCreateArticle a => createArticle s a
  | .opCreateCategory c => createCategory s c
  | .opCreateTag t => createTag s t
  | .opCreateArticleTag r => createArticleTag s r
  | .opCreateSavedArticle r => createSavedArticle s r
  | .opCreateComment c => createComment s c
  | .opCreateNewsletterSubscription n => createNewsletterSubscription s n
  | .opCreateEvent e => createEvent s e
  | .opCreateEventRsvp i => createEventRsvp s i
  | .opCreateMembershipSubscription i => createMembershipSubscription s i
  | .opDeleteUser uid => deleteUser s uid
  | .opDeleteArticle aid => deleteArticle s aid
  | .opDeleteCategory cid => deleteCategory s cid
  | .opDeleteTag tid => deleteTag s tid
  | .opDeleteEvent eid => deleteEvent s eid
  | .opUpdateUser uid f now => updateUser s uid f now
  | .opUpdateArticle aid f now => updateArticle s aid f now
  | .opUpdateComment cid f now => updateComment s cid f now
  | .opUpdateEvent eid f now => updateEvent s eid f now
  | .opUpdateMembershipSubscription mid f now => updateMembershipSubscription s mid f now
  | .opUpdateEventRsvpStatus uid eid v => updateEventRsvpStatus s uid eid v

/-! ### Route table (`src/paths.ts`)

The `PATHS` constant: static strings, except `ARTICLES.DETAIL`, which
interpolates a slug into a template literal. -/

namespace PATHS

def HOME : String := "/"

namespace AUTH

def SIGN_IN : String := "/auth/sign-in"

def SIGN_UP : String := "/auth/sign-up"

def SIGN_OUT : String := "/auth/sign-out"

def VERIFY_EMAIL : String := "/auth/verify-email"

def RESET_PASSWORD : String := "/auth/reset-password"

end AUTH

namespace ARTICLES

def LIST : String := "/articles"

/-- `DETAIL: (slug: string) => ` the template literal
interpolating `slug` after the `/articles/` segment. -/
def DETAIL (slug : String) : String := "/articles/" ++ slug

end ARTICLES

def PROFILE : String := "/profile"

def DASHBOARD : String := "/dashboard"

namespace ADMIN

def DASHBOARD : String := "/admin"

def ARTICLES : String := "/admin/articles"

def USERS : String := "/admin/users"

def NEWSLETTER : String := "/admin/newsletter"

def EVENTS : String := "/admin/events"

end ADMIN

end PATHS

/-! ### Concrete fixtures used by witnesses and counterexamples -/

/-- A sample user. -/
def sampleUser : User :=
  ⟨"u1", "u1@example.com", none, "pw", false, 0, 0⟩

/-- A second sample user, distinct id and email. -/
def sampleUser2 : User :=
  ⟨"u2", "u2@example.com", none, "pw", false, 0, 0⟩

/-- A sample category. -/
def sampleCategory : Category :=
  ⟨"c1", "Tech", "tech", none, none, 0⟩

/-- A sample article authored by `sampleUser` in `sampleCategory`. -/
def sampleArticle : Article :=
  ⟨"a1", "hello-world", "Hello", none, "body", "ex", none, 5, false, false,
   none, 0, 0, 0, none, none, "u1", "c1"⟩

/-- A sample session of `sampleUser`. -/
def sampleSession : Session :=
  ⟨"s1", "u1", 100⟩

/-- A sample event. -/
def sampleEvent : Event :=
  ⟨"e1", "Meetup", "desc", "London", 10, 20, none, none, false, 0, 0⟩

/-- A sample RSVP of `sampleUser` to `sampleEvent`. -/
def sampleRsvp : EventRsvp :=
  ⟨"r1", "u1", "e1", RsvpStatus.CONFIRMED, 0⟩

/-- Store holding `sampleUser`, their session, and an article they
authored: the fixture refuting the unconditional user-delete cascade. -/
def storeUserWithArticle : Store :=
  { Store.empty with
    users := [sampleUser],
    sessions := [sampleSession],
    categories := [sampleCategory],
    articles := [sampleArticle] }

/-- Store holding just `sampleUser` and `sampleEvent`. -/
def storeUserEvent : Store :=
  { Store.empty with users := [sampleUser], events := [sampleEvent] }

/-- Store holding `sampleUser`, `sampleEvent` and `sampleRsvp`. -/
def storeWithRsvp : Store :=
  { storeUserEvent with eventRsvps := [sampleRsvp] }

/-- RSVP create input without a `status`. -/
def sampleRsvpInput : EventRsvpCreateInput :=
  ⟨"r1", "u1", "e1", none, 0⟩

/-- Membership create input without a `status`. -/
def sampleMembershipInput : MembershipSubscriptionCreateInput :=
  ⟨"m1", "u1", none, none, none, none, none, 0, 0⟩

/-! ### Claim theorems -/

/-- **C8**: the route table `PATHS` is a static constant mapping: every
entry is a fixed URL path string, except the article detail entry, which
for every slug `s` returns exactly `"/articles/" ++ s`; no entry performs
any computation beyond string construction. -/
theorem c8_paths_is_static_route_table :
    PATHS.HOME = "/" ∧
    PATHS.AUTH.SIGN_IN = "/auth/sign-in" ∧
    PATHS.AUTH.SIGN_UP = "/auth/sign-up" ∧
    PATHS.AUTH.SIGN_OUT = "/auth/sign-out" ∧
    PATHS.AUTH.VERIFY_EMAIL = "/auth/verify-email" ∧
    PATHS.AUTH.RESET_PASSWORD = "/auth/reset-password" ∧
    PATHS.ARTICLES.LIST = "/articles" ∧
    (∀ slug : String, PATHS.ARTICLES.DETAIL slug = "/articles/" ++ slug) ∧
    PATHS.PROFILE = "/profile" ∧
    PATHS.DASHBOARD = "/dashboard" ∧
    PATHS.ADMIN.DASHBOARD = "/admin" ∧
    PATHS.ADMIN.ARTICLES = "/admin/articles" ∧
    PATHS.ADMIN.USERS = "/admin/users" ∧
    PATHS.ADMIN.NEWSLETTER = "/admin/newsletter" ∧
    PATHS.ADMIN.EVENTS = "/admin/events" :=
  ⟨rfl, rfl, rfl, rfl, rfl, rfl, rfl, fun _ => rfl, rfl, rfl, rfl, rfl, rfl,
   rfl, rfl⟩

/-- Store holding just `sampleUser`. -/
def storeUser1 : Store :=
  { Store.empty with users := [sampleUser] }

/-- Store holding `sampleUser` and their membership row. -/
def storeWithMembership : Store :=
  { storeUser1 with
    membershipSubscriptions :=
      [⟨"m1", "u1", none, none, SubscriptionStatus.INACTIVE, none, none, 0, 0⟩] }

/-- **C9**: a create of an `EventRsvp` that does not supply a `status`
stores the row with the schema default `CONFIRMED`; every row added by
such a create is `CONFIRMED`, never `WAITLISTED` or `CANCELLED`. -/
theorem c9_rsvp_status_defaults_to_confirmed
    (s : Store) (i : EventRsvpCreateInput) (s' : Store)
    (hnone : i.status = none) (h : createEventRsvp s i = .ok s') :
    (∃ r ∈ s'.eventRsvps, r.id = i.id ∧ r.userId = i.userId ∧
      r.eventId = i.eventId ∧ r.createdAt = i.createdAt ∧
      r.status = RsvpStatus.CONFIRMED) ∧
    ∀ r ∈ s'.eventRsvps, r ∉ s.eventRsvps → r.status = RsvpStatus.CONFIRMED := by
  simp only [createEventRsvp] at h
  split at h
  · cases h
  · split at h
    · cases h
    · split at h
      · cases h
      · injection h with h
        subst h
        refine ⟨⟨i.row, by simp, ?_⟩, ?_⟩
        · simp [EventRsvpCreateInput.row, hnone]
        · intro r hr hnot
          rcases List.mem_append.mp hr with h1 | h1
          · exact absurd h1 hnot
          · rcases List.mem_singleton.mp h1 with rfl
            simp [EventRsvpCreateInput.row, hnone]

/-- Witness for C9 at a concrete store and input. -/
theorem c9_rsvp_status_defaults_to_confirmed_witness :
    sampleRsvpInput.status = none ∧
    createEventRsvp storeUserEvent sampleRsvpInput = Except.ok storeWithRsvp ∧
    ((∃ r ∈ storeWithRsvp.eventRsvps, r.id = sampleRsvpInput.id ∧
        r.userId = sampleRsvpInput.userId ∧
        r.eventId = sampleRsvpInput.eventId ∧
        r.createdAt = sampleRsvpInput.createdAt ∧
        r.status = RsvpStatus.CONFIRMED) ∧
      ∀ r ∈ storeWithRsvp.eventRsvps, r ∉ storeUserEvent.eventRsvps →
        r.status = RsvpStatus.CONFIRMED) :=
  ⟨rfl, by rfl,
   c9_rsvp_status_defaults_to_confirmed storeUserEvent sampleRsvpInput
     storeWithRsvp rfl (by rfl)⟩

/-- **C10**: a create of a `MembershipSubscription` that does not supply a
`status` stores the row with the schema default `INACTIVE`; every row
added by such a create is `INACTIVE`. -/
theorem c10_membership_status_defaults_to_inactive
    (s : Store) (i : MembershipSubscriptionCreateInput) (s' : Store)
    (hnone : i.status = none) (h : createMembershipSubscription s i = .ok s') :
    (∃ r ∈ s'.membershipSubscriptions, r.id = i.id ∧ r.userId = i.userId ∧
      r.status = SubscriptionStatus.INACTIVE) ∧
    ∀ r ∈ s'.membershipSubscriptions, r ∉ s.membershipSubscriptions →
      r.status = SubscriptionStatus.INACTIVE := by
  simp only [createMembershipSubscription] at h
  split at h
  · cases h
  · split at h
    · cases h
    · injection h with h
      subst h
      refine ⟨⟨i.row, by simp, ?_⟩, ?_⟩
      · simp [MembershipSubscriptionCreateInput.row, hnone]
      · intro r hr hnot
        rcases List.mem_append.mp hr with h1 | h1
        · exact absurd h1 hnot
        · rcases List.mem_singleton.mp h1 with rfl
          simp [MembershipSubscriptionCreateInput.row, hnone]

/-- Witness for C10 at a concrete store and input. -/
theorem c10_membership_status_defaults_to_inactive_witness :
    sampleMembershipInput.status = none ∧
    createMembershipSubscription storeUser1 sampleMembershipInput
      = Except.ok storeWithMembership ∧
    ((∃ r ∈ storeWithMembership.membershipSubscriptions,
        r.id = sampleMembershipInput.id ∧
        r.userId = sampleMembershipInput.userId ∧
        r.status = SubscriptionStatus.INACTIVE) ∧
      ∀ r ∈ storeWithMembership.membershipSubscriptions,
        r ∉ storeUser1.membershipSubscriptions →
        r.status = SubscriptionStatus.INACTIVE) :=
  ⟨rfl, by rfl,
   c10_membership_status_defaults_to_inactive storeUser1 sampleMembershipInput
     storeWithMembership rfl (by rfl)⟩

/-- **C2**: deleting a `Category` still referenced by at least one
`Article` fails with `ForeignKeyViolation`; no store results, so the
category and all referencing articles are unchanged. -/
theorem c2_delete_referenced_category_rejected
    (s : Store) (c : Category) (a : Article)
    (hc : c ∈ s.categories) (ha : a ∈ s.articles) (href : a.categoryId = c.id) :
    deleteCategory s c.id = Except.error DbError.ForeignKeyViolation := by
  have h1 : s.categories.any (fun x => x.id == c.id) = true :=
    List.any_eq_true.mpr ⟨c, hc, by simp⟩
  have h2 : s.articles.any (fun x => x.categoryId == c.id) = true :=
    List.any_eq_true.mpr ⟨a, ha, by simp [href]⟩
  simp [deleteCategory, h1, h2]

/-- Witness for C2: the sample store holds category `c1` referenced by
article `a1`; deleting `c1` is rejected. -/
theorem c2_delete_referenced_category_rejected_witness :
    sampleCategory ∈ storeUserWithArticle.categories ∧
    sampleArticle ∈ storeUserWithArticle.articles ∧
    sampleArticle.categoryId = sampleCategory.id ∧
    deleteCategory storeUserWithArticle sampleCategory.id
      = Except.error DbError.ForeignKeyViolation :=
  ⟨by simp [storeUserWithArticle], by simp [storeUserWithArticle], rfl,
   c2_delete_referenced_category_rejected storeUserWithArticle sampleCategory
     sampleArticle (by simp [storeUserWithArticle])
     (by simp [storeUserWithArticle]) rfl⟩

/-- **C5**: deleting a stored `Article` succeeds and removes exactly its
`ArticleTag`, `SavedArticle` and `Comment` rows (a row of those tables
survives iff it does not reference the article), while every `Category`,
`Tag` and `User` row — in particular the article's category and author —
is unchanged. -/
theorem c5_delete_article_cascades_exactly
    (s : Store) (a : Article) (ha : a ∈ s.articles) :
    ∃ s', deleteArticle s a.id = Except.ok s' ∧
      (∀ r : ArticleTag, r ∈ s'.articleTags ↔
        r ∈ s.articleTags ∧ r.articleId ≠ a.id) ∧
      (∀ r : SavedArticle, r ∈ s'.savedArticles ↔
        r ∈ s.savedArticles ∧ r.articleId ≠ a.id) ∧
      (∀ r : Comment, r ∈ s'.comments ↔
        r ∈ s.comments ∧ r.articleId ≠ a.id) ∧
      (∀ b : Article, b ∈ s'.articles ↔ b ∈ s.articles ∧ b.id ≠ a.id) ∧
      s'.categories = s.categories ∧
      s'.tags = s.tags ∧
      s'.users = s.users := by
  have h1 : s.articles.any (fun x => x.id == a.id) = true :=
    List.any_eq_true.mpr ⟨a, ha, by simp⟩
  refine ⟨{ s with
      articles := s.articles.filter (fun x => x.id != a.id),
      articleTags := s.articleTags.filter (fun r => r.articleId != a.id),
      savedArticles := s.savedArticles.filter (fun r => r.articleId != a.id),
      comments := s.comments.filter (fun r => r.articleId != a.id) },
    ?_, ?_, ?_, ?_, ?_, rfl, rfl, rfl⟩
  · simp [deleteArticle, h1]
  all_goals
    intro r
    simp [List.mem_filter]

/-- Witness for C5: deleting `sampleArticle` from the sample store. -/
theorem c5_delete_article_cascades_exactly_witness :
    sampleArticle ∈ storeUserWithArticle.articles ∧
    (∃ s', deleteArticle storeUserWithArticle sampleArticle.id = Except.ok s' ∧
      (∀ r : ArticleTag, r ∈ s'.articleTags ↔
        r ∈ storeUserWithArticle.articleTags ∧ r.articleId ≠ sampleArticle.id) ∧
      (∀ r : SavedArticle, r ∈ s'.savedArticles ↔
        r ∈ storeUserWithArticle.savedArticles ∧ r.articleId ≠ sampleArticle.id) ∧
      (∀ r : Comment, r ∈ s'.comments ↔
        r ∈ storeUserWithArticle.comments ∧ r.articleId ≠ sampleArticle.id) ∧
      (∀ b : Article, b ∈ s'.articles ↔
        b ∈ storeUserWithArticle.articles ∧ b.id ≠ sampleArticle.id) ∧
      s'.categories = storeUserWithArticle.categories ∧
      s'.tags = storeUserWithArticle.tags ∧
      s'.users = storeUserWithArticle.users) :=
  ⟨by simp [storeUserWithArticle],
   c5_delete_article_cascades_exactly storeUserWithArticle sampleArticle
     (by simp [storeUserWithArticle])⟩

/-- **C6**: neither token table declares a relation to `User`, so a
successful user deletion leaves every `EmailVerificationToken` and
`PasswordResetToken` row — in particular those whose `userId` equals the
deleted user's id — present and unchanged. -/
theorem c6_user_delete_leaves_tokens
    (s : Store) (uid : String) (s' : Store)
    (h : deleteUser s uid = Except.ok s') :
    s'.emailVerificationTokens = s.emailVerificationTokens ∧
    s'.passwordResetTokens = s.passwordResetTokens ∧
    (∀ t ∈ s.emailVerificationTokens, t.userId = uid →
      t ∈ s'.emailVerificationTokens) ∧
    (∀ t ∈ s.passwordResetTokens, t.userId = uid →
      t ∈ s'.passwordResetTokens) := by
  simp only [deleteUser] at h
  split at h
  · cases h
  · split at h
    · cases h
    · injection h with h
      subst h
      exact ⟨rfl, rfl, fun t ht _ => ht, fun t ht _ => ht⟩

/-- Witness for C6: a store with `sampleUser` and one token of each kind;
deleting the user keeps both tokens. -/
theorem c6_user_delete_leaves_tokens_witness :
    deleteUser
      { storeUser1 with
        emailVerificationTokens := [⟨"evt1", "tok1", "u1@example.com", "u1", 9, 0⟩],
        passwordResetTokens := [⟨"prt1", "tok2", "u1@example.com", "u1", 9, 0⟩] }
      "u1" = Except.ok
      { Store.empty with
        emailVerificationTokens := [⟨"evt1", "tok1", "u1@example.com", "u1", 9, 0⟩],
        passwordResetTokens := [⟨"prt1", "tok2", "u1@example.com", "u1", 9, 0⟩] } ∧
    ({ Store.empty with
        emailVerificationTokens := [⟨"evt1", "tok1", "u1@example.com", "u1", 9, 0⟩],
        passwordResetTokens :=
          [⟨"prt1", "tok2", "u1@example.com", "u1", 9, 0⟩] } : Store).emailVerificationTokens
      = ({ storeUser1 with
          emailVerificationTokens := [⟨"evt1", "tok1", "u1@example.com", "u1", 9, 0⟩],
          passwordResetTokens :=
            [⟨"prt1", "tok2", "u1@example.com", "u1", 9, 0⟩] } : Store).emailVerificationTokens :=
  ⟨by rfl,
   (c6_user_delete_leaves_tokens _ "u1" _ (by rfl)).1⟩

/-- **C1 counterexample**: the claim quantifies over *every* stored user,
but `Article.author` is a required relation with no `onDelete` action, so
its default `Restrict` applies: in the sample store, `sampleUser` is
stored, owns a session, and authors an article, and deleting them fails
with `ForeignKeyViolation` — no store results in which the session rows
were removed. -/
theorem c1_counterexample :
    sampleUser ∈ storeUserWithArticle.users ∧
    sampleSession ∈ storeUserWithArticle.sessions ∧
    sampleSession.userId = sampleUser.id ∧
    deleteUser storeUserWithArticle sampleUser.id
      = Except.error DbError.ForeignKeyViolation ∧
    (deleteUser storeUserWithArticle sampleUser.id).isOk = false := by
  refine ⟨by simp [storeUserWithArticle], by simp [storeUserWithArticle], rfl,
    by rfl, by rfl⟩

/-- **C1 amended**: for every stored `User` who authors no stored
`Article`, deletion succeeds; it removes exactly the user's `Session`,
`SavedArticle`, `Comment` and `EventRsvp` rows and its
`MembershipSubscription` row (if any), and every `NewsletterSubscription`
row survives, with `userId` cleared when it referenced the deleted user
and every other field unchanged. -/
theorem c1_amended_user_delete_cascades
    (s : Store) (u : User) (hu : u ∈ s.users)
    (hnoart : ∀ a ∈ s.articles, a.authorId ≠ u.id) :
    ∃ s', deleteUser s u.id = Except.ok s' ∧
      (∀ r : User, r ∈ s'.users ↔ r ∈ s.users ∧ r.id ≠ u.id) ∧
      (∀ r : Session, r ∈ s'.sessions ↔ r ∈ s.sessions ∧ r.userId ≠ u.id) ∧
      (∀ r : SavedArticle, r ∈ s'.savedArticles ↔
        r ∈ s.savedArticles ∧ r.userId ≠ u.id) ∧
      (∀ r : Comment, r ∈ s'.comments ↔ r ∈ s.comments ∧ r.userId ≠ u.id) ∧
      (∀ r : EventRsvp, r ∈ s'.eventRsvps ↔
        r ∈ s.eventRsvps ∧ r.userId ≠ u.id) ∧
      (∀ r : MembershipSubscription, r ∈ s'.membershipSubscriptions ↔
        r ∈ s.membershipSubscriptions ∧ r.userId ≠ u.id) ∧
      s'.newsletterSubscriptions.length = s.newsletterSubscriptions.length ∧
      (∀ n ∈ s.newsletterSubscriptions,
        (if n.userId = some u.id then { n with userId := none } else n)
          ∈ s'.newsletterSubscriptions) ∧
      (∀ n' ∈ s'.newsletterSubscriptions, n'.userId ≠ some u.id) := by
  have h1 : s.users.any (fun x => x.id == u.id) = true :=
    List.any_eq_true.mpr ⟨u, hu, by simp⟩
  have h2 : s.articles.any (fun a => a.authorId == u.id) = false := by
    rw [List.any_eq_false]
    intro a ha
    simpa using hnoart a ha
  refine ⟨{ s with
      users := s.users.filter (fun x => x.id != u.id),
      sessions := s.sessions.filter (fun r => r.userId != u.id),
      savedArticles := s.savedArticles.filter (fun r => r.userId != u.id),
      comments := s.comments.filter (fun r => r.userId != u.id),
      eventRsvps := s.eventRsvps.filter (fun r => r.userId != u.id),
      membershipSubscriptions :=
        s.membershipSubscriptions.filter (fun r => r.userId != u.id),
      newsletterSubscriptions := s.newsletterSubscriptions.map (fun n =>
        if n.userId == some u.id then { n with userId := none } else n) },
    ?_, ?_, ?_, ?_, ?_, ?_, ?_, ?_, ?_, ?_⟩
  · simp [deleteUser, h1, h2]
  · intro r; simp [List.mem_filter]
  · intro r; simp [List.mem_filter]
  · intro r; simp [List.mem_filter]
  · intro r; simp [List.mem_filter]
  · intro r; simp [List.mem_filter]
  · intro r; simp [List.mem_filter]
  · simp
  · intro n hn
    refine List.mem_map.mpr ⟨n, hn, ?_⟩
    by_cases hcase : n.userId = some u.id <;> simp [hcase]
  · intro n' hn'
    rcases List.mem_map.mp hn' with ⟨n, hn, rfl⟩
    by_cases hcase : n.userId = some u.id <;> simp [hcase]

/-- Store for the C1 witness: `sampleUser`, their session, a linked
newsletter subscription, and no articles. -/
def storeForC1 : Store :=
  { storeUser1 with
    sessions := [sampleSession],
    newsletterSubscriptions :=
      [⟨"n1", "u1@example.com", some "u1", true, 0, none, none⟩] }

/-- Witness for the amended C1: a store with a user, their session, a
newsletter subscription linked to them, and no articles. -/
theorem c1_amended_user_delete_cascades_witness :
    sampleUser ∈
      storeForC1.users ∧
    (∃ s', deleteUser
        storeForC1
        sampleUser.id = Except.ok s' ∧
      (∀ r : User, r ∈ s'.users ↔
        r ∈ storeForC1.users
          ∧ r.id ≠ sampleUser.id) ∧
      (∀ r : Session, r ∈ s'.sessions ↔
        r ∈ storeForC1.sessions
          ∧ r.userId ≠ sampleUser.id) ∧
      (∀ r : SavedArticle, r ∈ s'.savedArticles ↔
        r ∈ storeForC1.savedArticles
          ∧ r.userId ≠ sampleUser.id) ∧
      (∀ r : Comment, r ∈ s'.comments ↔
        r ∈ storeForC1.comments
          ∧ r.userId ≠ sampleUser.id) ∧
      (∀ r : EventRsvp, r ∈ s'.eventRsvps ↔
        r ∈ storeForC1.eventRsvps
          ∧ r.userId ≠ sampleUser.id) ∧
      (∀ r : MembershipSubscription, r ∈ s'.membershipSubscriptions ↔
        r ∈ storeForC1.membershipSubscriptions
          ∧ r.userId ≠ sampleUser.id) ∧
      s'.newsletterSubscriptions.length =
        storeForC1.newsletterSubscriptions.length ∧
      (∀ n ∈ storeForC1.newsletterSubscriptions,
        (if n.userId = some sampleUser.id then { n with userId := none } else n)
          ∈ s'.newsletterSubscriptions) ∧
      (∀ n' ∈ s'.newsletterSubscriptions, n'.userId ≠ some sampleUser.id)) :=
  ⟨by simp [storeForC1, storeUser1],
   c1_amended_user_delete_cascades _ sampleUser (by simp [storeForC1, storeUser1])
     (by intro a ha; simp [storeForC1, storeUser1, Store.empty] at ha)⟩

/-- A successful `updateUser` stamps the updated row's `updatedAt` with
the current time. -/
theorem updateUser_sets_updatedAt (s : Store) (uid : String) (f : User → User)
    (now : Nat) (s' : Store) (h : updateUser s uid f now = Except.ok s') :
    ∀ r ∈ s'.users, r.id = uid → r.updatedAt = now := by
  simp only [updateUser] at h
  split at h
  · cases h
  · split at h
    · cases h
    · injection h with h
      subst h
      intro r hr hid
      rcases List.mem_map.mp hr with ⟨x, hx, rfl⟩
      by_cases hxid : (x.id == uid) = true
      · simp [hxid]
      · rw [if_neg hxid] at hid ⊢
        exact absurd (by simp [hid]) hxid

/-- A successful `updateArticle` stamps the updated row's `updatedAt`. -/
theorem updateArticle_sets_updatedAt (s : Store) (aid : String)
    (f : Article → Article) (now : Nat) (s' : Store)
    (h : updateArticle s aid f now = Except.ok s') :
    ∀ r ∈ s'.articles, r.id = aid → r.updatedAt = now := by
  simp only [updateArticle] at h
  split at h
  · cases h
  · split at h
    · cases h
    · split at h
      · cases h
      · split at h
        · cases h
        · injection h with h
          subst h
          intro r hr hid
          rcases List.mem_map.mp hr with ⟨x, hx, rfl⟩
          by_cases hxid : (x.id == aid) = true
          · simp [hxid]
          · rw [if_neg hxid] at hid ⊢
            exact absurd (by simp [hid]) hxid

/-- A successful `updateComment` stamps the updated row's `updatedAt`. -/
theorem updateComment_sets_updatedAt (s : Store) (cid : String)
    (f : Comment → Comment) (now : Nat) (s' : Store)
    (h : updateComment s cid f now = Except.ok s') :
    ∀ r ∈ s'.comments, r.id = cid → r.updatedAt = now := by
  simp only [updateComment] at h
  split at h
  · cases h
  · injection h with h
    subst h
    intro r hr hid
    rcases List.mem_map.mp hr with ⟨x, hx, rfl⟩
    by_cases hxid : (x.id == cid) = true
    · simp [hxid]
    · rw [if_neg hxid] at hid ⊢
      exact absurd (by simp [hid]) hxid

/-- A successful `updateEvent` stamps the updated row's `updatedAt`. -/
theorem updateEvent_sets_updatedAt (s : Store) (eid : String)
    (f : Event → Event) (now : Nat) (s' : Store)
    (h : updateEvent s eid f now = Except.ok s') :
    ∀ r ∈ s'.events, r.id = eid → r.updatedAt = now := by
  simp only [updateEvent] at h
  split at h
  · cases h
  · injection h with h
    subst h
    intro r hr hid
    rcases List.mem_map.mp hr with ⟨x, hx, rfl⟩
    by_cases hxid : (x.id == eid) = true
    · simp [hxid]
    · rw [if_neg hxid] at hid ⊢
      exact absurd (by simp [hid]) hxid

/-- A successful `updateMembershipSubscription` stamps the updated row's
`updatedAt`. -/
theorem updateMembershipSubscription_sets_updatedAt (s : Store) (mid : String)
    (f : MembershipSubscription → MembershipSubscription) (now : Nat) (s' : Store)
    (h : updateMembershipSubscription s mid f now = Except.ok s') :
    ∀ r ∈ s'.membershipSubscriptions, r.id = mid → r.updatedAt = now := by
  simp only [updateMembershipSubscription] at h
  split at h
  · cases h
  · split at h
    · cases h
    · injection h with h
      subst h
      intro r hr hid
      rcases List.mem_map.mp hr with ⟨x, hx, rfl⟩
      by_cases hxid : (x.id == mid) = true
      · simp [hxid]
      · rw [if_neg hxid] at hid ⊢
        exact absurd (by simp [hid]) hxid

/-- `updateEventRsvpStatus` only rewrites `status`: `EventRsvp` declares no
`@updatedAt` column, and every surviving row keeps its identity, parents
and `createdAt`. -/
theorem updateEventRsvpStatus_preserves_identity (s : Store) (uid eid : String)
    (v : RsvpStatus) (s' : Store)
    (h : updateEventRsvpStatus s uid eid v = Except.ok s') :
    ∀ r' ∈ s'.eventRsvps, ∃ r ∈ s.eventRsvps, r'.id = r.id ∧
      r'.userId = r.userId ∧ r'.eventId = r.eventId ∧ r'.createdAt = r.createdAt := by
  simp only [updateEventRsvpStatus] at h
  split at h
  · injection h with h
    subst h
    intro r' hr'
    rcases List.mem_map.mp hr' with ⟨x, hx, rfl⟩
    refine ⟨x, hx, ?_⟩
    by_cases hc : (x.userId == uid && x.eventId == eid) = true <;> simp [hc]
  · cases h

/-- **C7**: every successful update refreshes the `@updatedAt` column of
the five models that declare one (`User`, `Article`, `Comment`, `Event`,
`MembershipSubscription`) to the current time, while `EventRsvp` — which
declares no such column — has every non-`status` field of its rows left
unchanged by its status update. -/
theorem c7_update_refreshes_updatedAt :
    (∀ s uid f now s', updateUser s uid f now = Except.ok s' →
      ∀ r ∈ s'.users, r.id = uid → r.updatedAt = now) ∧
    (∀ s aid f now s', updateArticle s aid f now = Except.ok s' →
      ∀ r ∈ s'.articles, r.id = aid → r.updatedAt = now) ∧
    (∀ s cid f now s', updateComment s cid f now = Except.ok s' →
      ∀ r ∈ s'.comments, r.id = cid → r.updatedAt = now) ∧
    (∀ s eid f now s', updateEvent s eid f now = Except.ok s' →
      ∀ r ∈ s'.events, r.id = eid → r.updatedAt = now) ∧
    (∀ s mid f now s', updateMembershipSubscription s mid f now = Except.ok s' →
      ∀ r ∈ s'.membershipSubscriptions, r.id = mid → r.updatedAt = now) ∧
    (∀ s uid eid v s', updateEventRsvpStatus s uid eid v = Except.ok s' →
      ∀ r' ∈ s'.eventRsvps, ∃ r ∈ s.eventRsvps, r'.id = r.id ∧
        r'.userId = r.userId ∧ r'.eventId = r.eventId ∧ r'.createdAt = r.createdAt) :=
  ⟨updateUser_sets_updatedAt, updateArticle_sets_updatedAt,
   updateComment_sets_updatedAt, updateEvent_sets_updatedAt,
   updateMembershipSubscription_sets_updatedAt,
   updateEventRsvpStatus_preserves_identity⟩

/-- The store after the C7 witness update: `sampleUser` with
`emailVerified := true` and `updatedAt := 42`. -/
def storeUser1Updated : Store :=
  { storeUser1 with users := [⟨"u1", "u1@example.com", none, "pw", true, 0, 42⟩] }

/-- Witness for C7 at a concrete update of `sampleUser`. -/
theorem c7_update_refreshes_updatedAt_witness :
    updateUser storeUser1 "u1" (fun u => { u with emailVerified := true }) 42
      = Except.ok storeUser1Updated ∧
    ∀ r ∈ storeUser1Updated.users, r.id = "u1" → r.updatedAt = 42 :=
  ⟨by rfl,
   c7_update_refreshes_updatedAt.1 storeUser1 "u1"
     (fun u => { u with emailVerified := true }) 42 storeUser1Updated (by rfl)⟩

/-- Appending one matching row to a list with no matching row leaves
exactly one matching row. -/
theorem filter_append_singleton_length {α : Type} (p : α → Bool) (l : List α)
    (x : α) (hl : ∀ a ∈ l, p a = false) (hx : p x = true) :
    ((l ++ [x]).filter p).length = 1 := by
  have hnil : l.filter p = [] := by
    rw [List.filter_eq_nil_iff]
    intro a ha
    simp [hl a ha]
  rw [List.filter_append, hnil]
  simp [hx]

/-- Two `createUser`s with the same `email`: the second fails and exactly
one user with that email is stored. -/
theorem createUser_email_unique (s : Store) (u1 u2 : User) (s1 : Store)
    (heq : u2.email = u1.email) (h1 : createUser s u1 = Except.ok s1) :
    createUser s1 u2 = Except.error DbError.UniqueConstraintViolation ∧
    (s1.users.filter (fun r => r.email == u1.email)).length = 1 := by
  simp only [createUser] at h1
  by_cases hc : (s.users.any (fun r => r.id == u1.id || r.email == u1.email
      || (u1.username.isSome && r.username == u1.username))) = true
  · rw [if_pos hc] at h1; cases h1
  · rw [if_neg hc] at h1
    injection h1 with h1
    subst h1
    have hnone : ∀ r ∈ s.users, ¬(r.email = u1.email) := fun r hr hmail =>
      hc (List.any_eq_true.mpr ⟨r, hr, by simp [hmail]⟩)
    have hdup : (s.users ++ [u1]).any (fun r => r.id == u2.id || r.email == u2.email
        || (u2.username.isSome && r.username == u2.username)) = true :=
      List.any_eq_true.mpr ⟨u1, by simp, by simp [heq]⟩
    exact ⟨by simp [createUser, hdup],
      filter_append_singleton_length _ _ _
        (fun r hr => by simp [hnone r hr]) (by simp)⟩

/-- Two `createUser`s with the same present `username`: the second fails
and exactly one user with that username is stored. -/
theorem createUser_username_unique (s : Store) (u1 u2 : User) (s1 : Store)
    (t : String) (hu1 : u1.username = some t) (hu2 : u2.username = some t)
    (h1 : createUser s u1 = Except.ok s1) :
    createUser s1 u2 = Except.error DbError.UniqueConstraintViolation ∧
    (s1.users.filter (fun r => r.username == some t)).length = 1 := by
  simp only [createUser] at h1
  by_cases hc : (s.users.any (fun r => r.id == u1.id || r.email == u1.email
      || (u1.username.isSome && r.username == u1.username))) = true
  · rw [if_pos hc] at h1; cases h1
  · rw [if_neg hc] at h1
    injection h1 with h1
    subst h1
    have hnone : ∀ r ∈ s.users, ¬(r.username = some t) := fun r hr hname =>
      hc (List.any_eq_true.mpr ⟨r, hr, by simp [hname, hu1]⟩)
    have hdup : (s.users ++ [u1]).any (fun r => r.id == u2.id || r.email == u2.email
        || (u2.username.isSome && r.username == u2.username)) = true :=
      List.any_eq_true.mpr ⟨u1, by simp, by simp [hu1, hu2]⟩
    exact ⟨by simp [createUser, hdup],
      filter_append_singleton_length _ _ _
        (fun r hr => by simp [hnone r hr]) (by simp [hu1])⟩

/-- Two `createArticle`s with the same `slug`: the second fails and
exactly one article with that slug is stored. -/
theorem createArticle_slug_unique (s : Store) (a1 a2 : Article) (s1 : Store)
    (heq : a2.slug = a1.slug) (h1 : createArticle s a1 = Except.ok s1) :
    createArticle s1 a2 = Except.error DbError.UniqueConstraintViolation ∧
    (s1.articles.filter (fun r => r.slug == a1.slug)).length = 1 := by
  simp only [createArticle] at h1
  by_cases hc : (s.articles.any (fun x => x.id == a1.id || x.slug == a1.slug)) = true
  · rw [if_pos hc] at h1; cases h1
  · rw [if_neg hc] at h1
    split at h1
    · cases h1
    · split at h1
      · cases h1
      · injection h1 with h1
        subst h1
        have hnone : ∀ r ∈ s.articles, ¬(r.slug = a1.slug) := fun r hr hslug =>
          hc (List.any_eq_true.mpr ⟨r, hr, by simp [hslug]⟩)
        have hdup : (s.articles ++ [a1]).any
            (fun x => x.id == a2.id || x.slug == a2.slug) = true :=
          List.any_eq_true.mpr ⟨a1, by simp, by simp [heq]⟩
        exact ⟨by simp [createArticle, hdup],
          filter_append_singleton_length _ _ _
            (fun r hr => by simp [hnone r hr]) (by simp)⟩

/-- Two `createCategory`s with the same `slug`: the second fails and
exactly one category with that slug is stored. -/
theorem createCategory_slug_unique (s : Store) (c1 c2 : Category) (s1 : Store)
    (heq : c2.slug = c1.slug) (h1 : createCategory s c1 = Except.ok s1) :
    createCategory s1 c2 = Except.error DbError.UniqueConstraintViolation ∧
    (s1.categories.filter (fun r => r.slug == c1.slug)).length = 1 := by
  simp only [createCategory] at h1
  by_cases hc : (s.categories.any (fun x => x.id == c1.id || x.name == c1.name
      || x.slug == c1.slug)) = true
  · rw [if_pos hc] at h1; cases h1
  · rw [if_neg hc] at h1
    injection h1 with h1
    subst h1
    have hnone : ∀ r ∈ s.categories, ¬(r.slug = c1.slug) := fun r hr hslug =>
      hc (List.any_eq_true.mpr ⟨r, hr, by simp [hslug]⟩)
    have hdup : (s.categories ++ [c1]).any (fun x => x.id == c2.id
        || x.name == c2.name || x.slug == c2.slug) = true :=
      List.any_eq_true.mpr ⟨c1, by simp, by simp [heq]⟩
    exact ⟨by simp [createCategory, hdup],
      filter_append_singleton_length _ _ _
        (fun r hr => by simp [hnone r hr]) (by simp)⟩

/-- Two `createTag`s with the same `slug`: the second fails and exactly
one tag with that slug is stored. -/
theorem createTag_slug_unique (s : Store) (t1 t2 : Tag) (s1 : Store)
    (heq : t2.slug = t1.slug) (h1 : createTag s t1 = Except.ok s1) :
    createTag s1 t2 = Except.error DbError.UniqueConstraintViolation ∧
    (s1.tags.filter (fun r => r.slug == t1.slug)).length = 1 := by
  simp only [createTag] at h1
  by_cases hc : (s.tags.any (fun x => x.id == t1.id || x.name == t1.name
      || x.slug == t1.slug)) = true
  · rw [if_pos hc] at h1; cases h1
  · rw [if_neg hc] at h1
    injection h1 with h1
    subst h1
    have hnone : ∀ r ∈ s.tags, ¬(r.slug = t1.slug) := fun r hr hslug =>
      hc (List.any_eq_true.mpr ⟨r, hr, by simp [hslug]⟩)
    have hdup : (s.tags ++ [t1]).any (fun x => x.id == t2.id
        || x.name == t2.name || x.slug == t2.slug) = true :=
      List.any_eq_true.mpr ⟨t1, by simp, by simp [heq]⟩
    exact ⟨by simp [createTag, hdup],
      filter_append_singleton_length _ _ _
        (fun r hr => by simp [hnone r hr]) (by simp)⟩

/-- Two `createEmailVerificationToken`s with the same `token`: the second
fails and exactly one row with that token is stored. -/
theorem createEmailVerificationToken_token_unique (s : Store)
    (t1 t2 : EmailVerificationToken) (s1 : Store)
    (heq : t2.token = t1.token)
    (h1 : createEmailVerificationToken s t1 = Except.ok s1) :
    createEmailVerificationToken s1 t2
      = Except.error DbError.UniqueConstraintViolation ∧
    (s1.emailVerificationTokens.filter (fun r => r.token == t1.token)).length = 1 := by
  simp only [createEmailVerificationToken] at h1
  by_cases hc : (s.emailVerificationTokens.any
      (fun x => x.id == t1.id || x.token == t1.token)) = true
  · rw [if_pos hc] at h1; cases h1
  · rw [if_neg hc] at h1
    injection h1 with h1
    subst h1
    have hnone : ∀ r ∈ s.emailVerificationTokens, ¬(r.token = t1.token) :=
      fun r hr htok => hc (List.any_eq_true.mpr ⟨r, hr, by simp [htok]⟩)
    have hdup : (s.emailVerificationTokens ++ [t1]).any
        (fun x => x.id == t2.id || x.token == t2.token) = true :=
      List.any_eq_true.mpr ⟨t1, by simp, by simp [heq]⟩
    exact ⟨by simp [createEmailVerificationToken, hdup],
      filter_append_singleton_length _ _ _
        (fun r hr => by simp [hnone r hr]) (by simp)⟩

/-- Two `createPasswordResetToken`s with the same `token`: the second
fails and exactly one row with that token is stored. -/
theorem createPasswordResetToken_token_unique (s : Store)
    (t1 t2 : PasswordResetToken) (s1 : Store)
    (heq : t2.token = t1.token)
    (h1 : createPasswordResetToken s t1 = Except.ok s1) :
    createPasswordResetToken s1 t2
      = Except.error DbError.UniqueConstraintViolation ∧
    (s1.passwordResetTokens.filter (fun r => r.token == t1.token)).length = 1 := by
  simp only [createPasswordResetToken] at h1
  by_cases hc : (s.passwordResetTokens.any
      (fun x => x.id == t1.id || x.token == t1.token)) = true
  · rw [if_pos hc] at h1; cases h1
  · rw [if_neg hc] at h1
    injection h1 with h1
    subst h1
    have hnone : ∀ r ∈ s.passwordResetTokens, ¬(r.token = t1.token) :=
      fun r hr htok => hc (List.any_eq_true.mpr ⟨r, hr, by simp [htok]⟩)
    have hdup : (s.passwordResetTokens ++ [t1]).any
        (fun x => x.id == t2.id || x.token == t2.token) = true :=
      List.any_eq_true.mpr ⟨t1, by simp, by simp [heq]⟩
    exact ⟨by simp [createPasswordResetToken, hdup],
      filter_append_singleton_length _ _ _
        (fun r hr => by simp [hnone r hr]) (by simp)⟩

/-- Two `createNewsletterSubscription`s with the same `email`: the second
fails and exactly one row with that email is stored. -/
theorem createNewsletterSubscription_email_unique (s : Store)
    (n1 n2 : NewsletterSubscription) (s1 : Store)
    (heq : n2.email = n1.email)
    (h1 : createNewsletterSubscription s n1 = Except.ok s1) :
    createNewsletterSubscription s1 n2
      = Except.error DbError.UniqueConstraintViolation ∧
    (s1.newsletterSubscriptions.filter (fun r => r.email == n1.email)).length = 1 := by
  simp only [createNewsletterSubscription] at h1
  by_cases hc : (s.newsletterSubscriptions.any (fun x => x.id == n1.id
      || x.email == n1.email
      || (n1.confirmationToken.isSome
          && x.confirmationToken == n1.confirmationToken))) = true
  · rw [if_pos hc] at h1; cases h1
  · rw [if_neg hc] at h1
    split at h1
    · cases h1
    · injection h1 with h1
      subst h1
      have hnone : ∀ r ∈ s.newsletterSubscriptions, ¬(r.email = n1.email) :=
        fun r hr hmail => hc (List.any_eq_true.mpr ⟨r, hr, by simp [hmail]⟩)
      have hdup : (s.newsletterSubscriptions ++ [n1]).any (fun x => x.id == n2.id
          || x.email == n2.email
          || (n2.confirmationToken.isSome
              && x.confirmationToken == n2.confirmationToken)) = true :=
        List.any_eq_true.mpr ⟨n1, by simp, by simp [heq]⟩
      exact ⟨by simp [createNewsletterSubscription, hdup],
        filter_append_singleton_length _ _ _
          (fun r hr => by simp [hnone r hr]) (by simp)⟩

/-- Two `createNewsletterSubscription`s with the same present
`confirmationToken`: the second fails and exactly one row with that token
is stored. -/
theorem createNewsletterSubscription_confirmationToken_unique (s : Store)
    (n1 n2 : NewsletterSubscription) (s1 : Store) (t : String)
    (ht1 : n1.confirmationToken = some t) (ht2 : n2.confirmationToken = some t)
    (h1 : createNewsletterSubscription s n1 = Except.ok s1) :
    createNewsletterSubscription s1 n2
      = Except.error DbError.UniqueConstraintViolation ∧
    (s1.newsletterSubscriptions.filter
      (fun r => r.confirmationToken == some t)).length = 1 := by
  simp only [createNewsletterSubscription] at h1
  by_cases hc : (s.newsletterSubscriptions.any (fun x => x.id == n1.id
      || x.email == n1.email
      || (n1.confirmationToken.isSome
          && x.confirmationToken == n1.confirmationToken))) = true
  · rw [if_pos hc] at h1; cases h1
  · rw [if_neg hc] at h1
    split at h1
    · cases h1
    · injection h1 with h1
      subst h1
      have hnone : ∀ r ∈ s.newsletterSubscriptions,
          ¬(r.confirmationToken = some t) := fun r hr htok =>
        hc (List.any_eq_true.mpr ⟨r, hr, by simp [htok, ht1]⟩)
      have hdup : (s.newsletterSubscriptions ++ [n1]).any (fun x => x.id == n2.id
          || x.email == n2.email
          || (n2.confirmationToken.isSome
              && x.confirmationToken == n2.confirmationToken)) = true :=
        List.any_eq_true.mpr ⟨n1, by simp, by simp [ht1, ht2]⟩
      exact ⟨by simp [createNewsletterSubscription, hdup],
        filter_append_singleton_length _ _ _
          (fun r hr => by simp [hnone r hr]) (by simp [ht1])⟩

/-- Two `createMembershipSubscription`s with the same present
`stripeCustomerId`: the second fails and exactly one row with that
customer id is stored. -/
theorem createMembershipSubscription_stripeCustomerId_unique (s : Store)
    (i1 i2 : MembershipSubscriptionCreateInput) (s1 : Store) (t : String)
    (ht1 : i1.stripeCustomerId = some t) (ht2 : i2.stripeCustomerId = some t)
    (h1 : createMembershipSubscription s i1 = Except.ok s1) :
    createMembershipSubscription s1 i2
      = Except.error DbError.UniqueConstraintViolation ∧
    (s1.membershipSubscriptions.filter
      (fun r => r.stripeCustomerId == some t)).length = 1 := by
  simp only [createMembershipSubscription] at h1
  by_cases hc : (s.membershipSubscriptions.any (fun x => x.id == i1.id
      || x.userId == i1.userId
      || (i1.stripeCustomerId.isSome && x.stripeCustomerId == i1.stripeCustomerId)
      || (i1.stripeSubId.isSome && x.stripeSubId == i1.stripeSubId))) = true
  · rw [if_pos hc] at h1; cases h1
  · rw [if_neg hc] at h1
    split at h1
    · cases h1
    · injection h1 with h1
      subst h1
      have hnone : ∀ r ∈ s.membershipSubscriptions,
          ¬(r.stripeCustomerId = some t) := fun r hr htok =>
        hc (List.any_eq_true.mpr ⟨r, hr, by simp [htok, ht1]⟩)
      have hdup : (s.membershipSubscriptions ++ [i1.row]).any
          (fun x => x.id == i2.id || x.userId == i2.userId
            || (i2.stripeCustomerId.isSome
                && x.stripeCustomerId == i2.stripeCustomerId)
            || (i2.stripeSubId.isSome && x.stripeSubId == i2.stripeSubId)) = true :=
        List.any_eq_true.mpr ⟨i1.row, by simp,
          by simp [MembershipSubscriptionCreateInput.row, ht1, ht2]⟩
      exact ⟨by simp [createMembershipSubscription, hdup],
        filter_append_singleton_length _ _ _
          (fun r hr => by simp [hnone r hr])
          (by simp [MembershipSubscriptionCreateInput.row, ht1])⟩

/-- Two `createMembershipSubscription`s with the same present
`stripeSubId`: the second fails and exactly one row with that external
subscription id is stored. -/
theorem createMembershipSubscription_stripeSubId_unique (s : Store)
    (i1 i2 : MembershipSubscriptionCreateInput) (s1 : Store) (t : String)
    (ht1 : i1.stripeSubId = some t) (ht2 : i2.stripeSubId = some t)
    (h1 : createMembershipSubscription s i1 = Except.ok s1) :
    createMembershipSubscription s1 i2
      = Except.error DbError.UniqueConstraintViolation ∧
    (s1.membershipSubscriptions.filter
      (fun r => r.stripeSubId == some t)).length = 1 := by
  simp only [createMembershipSubscription] at h1
  by_cases hc : (s.membershipSubscriptions.any (fun x => x.id == i1.id
      || x.userId == i1.userId
      || (i1.stripeCustomerId.isSome && x.stripeCustomerId == i1.stripeCustomerId)
      || (i1.stripeSubId.isSome && x.stripeSubId == i1.stripeSubId))) = true
  · rw [if_pos hc] at h1; cases h1
  · rw [if_neg hc] at h1
    split at h1
    · cases h1
    · injection h1 with h1
      subst h1
      have hnone : ∀ r ∈ s.membershipSubscriptions,
          ¬(r.stripeSubId = some t) := fun r hr htok =>
        hc (List.any_eq_true.mpr ⟨r, hr, by simp [htok, ht1]⟩)
      have hdup : (s.membershipSubscriptions ++ [i1.row]).any
          (fun x => x.id == i2.id || x.userId == i2.userId
            || (i2.stripeCustomerId.isSome
                && x.stripeCustomerId == i2.stripeCustomerId)
            || (i2.stripeSubId.isSome && x.stripeSubId == i2.stripeSubId)) = true :=
        List.any_eq_true.mpr ⟨i1.row, by simp,
          by simp [MembershipSubscriptionCreateInput.row, ht1, ht2]⟩
      exact ⟨by simp [createMembershipSubscription, hdup],
        filter_append_singleton_length _ _ _
          (fun r hr => by simp [hnone r hr])
          (by simp [MembershipSubscriptionCreateInput.row, ht1])⟩

/-- **C3**: for every unique field (`User.email`, `User.username`,
`Article`/`Category`/`Tag` `slug`, the token strings,
`NewsletterSubscription.email` and `confirmationToken`, and
`MembershipSubscription`'s external stripe ids), two creates carrying the
same value yield exactly one success and one `UniqueConstraintViolation`,
and afterwards exactly one stored entity carries that value. -/
theorem c3_unique_fields_reject_duplicates :
    (∀ s u1 u2 s1, u2.email = u1.email → createUser s u1 = Except.ok s1 →
      createUser s1 u2 = Except.error DbError.UniqueConstraintViolation ∧
      (s1.users.filter (fun r => r.email == u1.email)).length = 1) ∧
    (∀ s u1 u2 s1 t, u1.username = some t → u2.username = some t →
      createUser s u1 = Except.ok s1 →
      createUser s1 u2 = Except.error DbError.UniqueConstraintViolation ∧
      (s1.users.filter (fun r => r.username == some t)).length = 1) ∧
    (∀ s a1 a2 s1, a2.slug = a1.slug → createArticle s a1 = Except.ok s1 →
      createArticle s1 a2 = Except.error DbError.UniqueConstraintViolation ∧
      (s1.articles.filter (fun r => r.slug == a1.slug)).length = 1) ∧
    (∀ s c1 c2 s1, c2.slug = c1.slug → createCategory s c1 = Except.ok s1 →
      createCategory s1 c2 = Except.error DbError.UniqueConstraintViolation ∧
      (s1.categories.filter (fun r => r.slug == c1.slug)).length = 1) ∧
    (∀ s t1 t2 s1, t2.slug = t1.slug → createTag s t1 = Except.ok s1 →
      createTag s1 t2 = Except.error DbError.UniqueConstraintViolation ∧
      (s1.tags.filter (fun r => r.slug == t1.slug)).length = 1) ∧
    (∀ s t1 t2 s1, t2.token = t1.token →
      createEmailVerificationToken s t1 = Except.ok s1 →
      createEmailVerificationToken s1 t2
        = Except.error DbError.UniqueConstraintViolation ∧
      (s1.emailVerificationTokens.filter
        (fun r => r.token == t1.token)).length = 1) ∧
    (∀ s t1 t2 s1, t2.token = t1.token →
      createPasswordResetToken s t1 = Except.ok s1 →
      createPasswordResetToken s1 t2
        = Except.error DbError.UniqueConstraintViolation ∧
      (s1.passwordResetTokens.filter
        (fun r => r.token == t1.token)).length = 1) ∧
    (∀ s n1 n2 s1, n2.email = n1.email →
      createNewsletterSubscription s n1 = Except.ok s1 →
      createNewsletterSubscription s1 n2
        = Except.error DbError.UniqueConstraintViolation ∧
      (s1.newsletterSubscriptions.filter
        (fun r => r.email == n1.email)).length = 1) ∧
    (∀ s n1 n2 s1 t, n1.confirmationToken = some t →
      n2.confirmationToken = some t →
      createNewsletterSubscription s n1 = Except.ok s1 →
      createNewsletterSubscription s1 n2
        = Except.error DbError.UniqueConstraintViolation ∧
      (s1.newsletterSubscriptions.filter
        (fun r => r.confirmationToken == some t)).length = 1) ∧
    (∀ s i1 i2 s1 t, i1.stripeCustomerId = some t →
      i2.stripeCustomerId = some t →
      createMembershipSubscription s i1 = Except.ok s1 →
      createMembershipSubscription s1 i2
        = Except.error DbError.UniqueConstraintViolation ∧
      (s1.membershipSubscriptions.filter
        (fun r => r.stripeCustomerId == some t)).length = 1) ∧
    (∀ s i1 i2 s1 t, i1.stripeSubId = some t → i2.stripeSubId = some t →
      createMembershipSubscription s i1 = Except.ok s1 →
      createMembershipSubscription s1 i2
        = Except.error DbError.UniqueConstraintViolation ∧
      (s1.membershipSubscriptions.filter
        (fun r => r.stripeSubId == some t)).length = 1) :=
  ⟨fun s u1 u2 s1 => createUser_email_unique s u1 u2 s1,
   fun s u1 u2 s1 t => createUser_username_unique s u1 u2 s1 t,
   fun s a1 a2 s1 => createArticle_slug_unique s a1 a2 s1,
   fun s c1 c2 s1 => createCategory_slug_unique s c1 c2 s1,
   fun s t1 t2 s1 => createTag_slug_unique s t1 t2 s1,
   fun s t1 t2 s1 => createEmailVerificationToken_token_unique s t1 t2 s1,
   fun s t1 t2 s1 => createPasswordResetToken_token_unique s t1 t2 s1,
   fun s n1 n2 s1 => createNewsletterSubscription_email_unique s n1 n2 s1,
   fun s n1 n2 s1 t =>
     createNewsletterSubscription_confirmationToken_unique s n1 n2 s1 t,
   fun s i1 i2 s1 t =>
     createMembershipSubscription_stripeCustomerId_unique s i1 i2 s1 t,
   fun s i1 i2 s1 t =>
     createMembershipSubscription_stripeSubId_unique s i1 i2 s1 t⟩

/-- A user sharing `sampleUser`'s email under a different id. -/
def dupEmailUser : User :=
  ⟨"u9", "u1@example.com", none, "pw", false, 0, 0⟩

/-- Witness for C3 at a concrete duplicate-email pair. -/
theorem c3_unique_fields_reject_duplicates_witness :
    dupEmailUser.email = sampleUser.email ∧
    createUser Store.empty sampleUser = Except.ok storeUser1 ∧
    (createUser storeUser1 dupEmailUser
        = Except.error DbError.UniqueConstraintViolation ∧
      (storeUser1.users.filter (fun r => r.email == sampleUser.email)).length = 1) :=
  ⟨rfl, by rfl,
   c3_unique_fields_reject_duplicates.1 Store.empty sampleUser dupEmailUser
     storeUser1 rfl (by rfl)⟩

/-- The `@@unique([userId, eventId])` invariant: no two stored RSVPs share
both their user and their event. -/
def RsvpUnique (s : Store) : Prop :=
  s.eventRsvps.Pairwise (fun r1 r2 => r1.userId ≠ r2.userId ∨ r1.eventId ≠ r2.eventId)

/-- Creating a second RSVP for an already-RSVPed `(userId, eventId)` pair
fails with `UniqueConstraintViolation`. -/
theorem createEventRsvp_duplicate_pair_rejected (s : Store) (r : EventRsvp)
    (i : EventRsvpCreateInput) (hr : r ∈ s.eventRsvps)
    (hu : i.userId = r.userId) (he : i.eventId = r.eventId) :
    createEventRsvp s i = Except.error DbError.UniqueConstraintViolation := by
  have hdup : s.eventRsvps.any (fun x => x.id == i.id
      || (x.userId == i.userId && x.eventId == i.eventId)) = true :=
    List.any_eq_true.mpr ⟨r, hr, by simp [hu, he]⟩
  simp [createEventRsvp, hdup]

/-- Updating the status of an existing RSVP, keyed by its unique
`(userId, eventId)` pair, succeeds and sets that pair's stored status. -/
theorem updateEventRsvpStatus_existing_succeeds (s : Store) (r : EventRsvp)
    (v : RsvpStatus) (hr : r ∈ s.eventRsvps) :
    ∃ s', updateEventRsvpStatus s r.userId r.eventId v = Except.ok s' ∧
      ∀ x ∈ s'.eventRsvps, x.userId = r.userId → x.eventId = r.eventId →
        x.status = v := by
  have hex : s.eventRsvps.any
      (fun x => x.userId == r.userId && x.eventId == r.eventId) = true :=
    List.any_eq_true.mpr ⟨r, hr, by simp⟩
  refine ⟨{ s with eventRsvps := s.eventRsvps.map (fun x =>
      if x.userId == r.userId && x.eventId == r.eventId
      then { x with status := v } else x) }, ?_, ?_⟩
  · simp [updateEventRsvpStatus, hex]
  · intro x hx
    rcases List.mem_map.mp hx with ⟨y, hy, rfl⟩
    by_cases hc : (y.userId == r.userId && y.eventId == r.eventId) = true
    · intro _ _
      simp [hc]
    · rw [if_neg hc]
      intro hxu hxe
      exact absurd (by simp [hxu, hxe]) hc

/-- Every operation of the store preserves the RSVP pair-uniqueness
invariant. -/
theorem applyOp_preserves_rsvpUnique (op : Op) (s s' : Store)
    (hinv : RsvpUnique s) (h : applyOp op s = Except.ok s') : RsvpUnique s' := by
  cases op with
  | opCreateUser u =>
    simp only [applyOp, createUser] at h
    split at h
    · cases h
    · injection h with h; subst h; exact hinv
  | opCreateSession r =>
    simp only [applyOp, createSession] at h
    split at h
    · cases h
    · split at h
      · cases h
      · injection h with h; subst h; exact hinv
  | opCreateEmailVerificationToken r =>
    simp only [applyOp, createEmailVerificationToken] at h
    split at h
    · cases h
    · injection h with h; subst h; exact hinv
  | opCreatePasswordResetToken r =>
    simp only [applyOp, createPasswordResetToken] at h
    split at h
    · cases h
    · injection h with h; subst h; exact hinv
  | opCreateArticle a =>
    simp only [applyOp, createArticle] at h
    split at h
    · cases h
    · split at h
      · cases h
      · split at h
        · cases h
        · injection h with h; subst h; exact hinv
  | opCreateCategory c =>
    simp only [applyOp, createCategory] at h
    split at h
    · cases h
    · injection h with h; subst h; exact hinv
  | opCreateTag t =>
    simp only [applyOp, createTag] at h
    split at h
    · cases h
    · injection h with h; subst h; exact hinv
  | opCreateArticleTag r =>
    simp only [applyOp, createArticleTag] at h
    split at h
    · cases h
    · split at h
      · cases h
      · split at h
        · cases h
        · injection h with h; subst h; exact hinv
  | opCreateSavedArticle r =>
    simp only [applyOp, createSavedArticle] at h
    split at h
    · cases h
    · split at h
      · cases h
      · split at h
        · cases h
        · injection h with h; subst h; exact hinv
  | opCreateComment c =>
    simp only [applyOp, createComment] at h
    split at h
    · cases h
    · split at h
      · cases h
      · split at h
        · cases h
        · injection h with h; subst h; exact hinv
  | opCreateNewsletterSubscription n =>
    simp only [applyOp, createNewsletterSubscription] at h
    split at h
    · cases h
    · split at h
      · cases h
      · injection h with h; subst h; exact hinv
  | opCreateEvent e =>
    simp only [applyOp, createEvent] at h
    split at h
    · cases h
    · injection h with h; subst h; exact hinv
  | opCreateEventRsvp i =>
    simp only [applyOp, createEventRsvp] at h
    by_cases hc : (s.eventRsvps.any (fun x => x.id == i.id
        || (x.userId == i.userId && x.eventId == i.eventId))) = true
    · rw [if_pos hc] at h; cases h
    · rw [if_neg hc] at h
      split at h
      · cases h
      · split at h
        · cases h
        · injection h with h; subst h
          unfold RsvpUnique at hinv ⊢
          rw [List.pairwise_append]
          refine ⟨hinv, List.pairwise_singleton _ _, ?_⟩
          intro a ha b hb
          rcases List.mem_singleton.mp hb with rfl
          by_contra hno
          push_neg at hno
          simp only [EventRsvpCreateInput.row] at hno
          exact hc (List.any_eq_true.mpr ⟨a, ha, by simp [hno.1, hno.2]⟩)
  | opCreateMembershipSubscription i =>
    simp only [applyOp, createMembershipSubscription] at h
    split at h
    · cases h
    · split at h
      · cases h
      · injection h with h; subst h; exact hinv
  | opDeleteUser uid =>
    simp only [applyOp, deleteUser] at h
    split at h
    · cases h
    · split at h
      · cases h
      · injection h with h; subst h
        exact List.Pairwise.sublist (List.filter_sublist _) hinv
  | opDeleteArticle aid =>
    simp only [applyOp, deleteArticle] at h
    split at h
    · cases h
    · injection h with h; subst h; exact hinv
  | opDeleteCategory cid =>
    simp only [applyOp, deleteCategory] at h
    split at h
    · cases h
    · split at h
      · cases h
      · injection h with h; subst h; exact hinv
  | opDeleteTag tid =>
    simp only [applyOp, deleteTag] at h
    split at h
    · cases h
    · injection h with h; subst h; exact hinv
  | opDeleteEvent eid =>
    simp only [applyOp, deleteEvent] at h
    split at h
    · cases h
    · injection h with h; subst h
      exact List.Pairwise.sublist (List.filter_sublist _) hinv
  | opUpdateUser uid f now =>
    simp only [applyOp, updateUser] at h
    split at h
    · cases h
    · split at h
      · cases h
      · injection h with h; subst h; exact hinv
  | opUpdateArticle aid f now =>
    simp only [applyOp, updateArticle] at h
    split at h
    · cases h
    · split at h
      · cases h
      · split at h
        · cases h
        · split at h
          · cases h
          · injection h with h; subst h; exact hinv
  | opUpdateComment cid f now =>
    simp only [applyOp, updateComment] at h
    split at h
    · cases h
    · injection h with h; subst h; exact hinv
  | opUpdateEvent eid f now =>
    simp only [applyOp, updateEvent] at h
    split at h
    · cases h
    · injection h with h; subst h; exact hinv
  | opUpdateMembershipSubscription mid f now =>
    simp only [applyOp, updateMembershipSubscription] at h
    split at h
    · cases h
    · split at h
      · cases h
      · injection h with h; subst h; exact hinv
  | opUpdateEventRsvpStatus uid eid v =>
    simp only [applyOp, updateEventRsvpStatus] at h
    split at h
    · injection h with h; subst h
      unfold RsvpUnique at hinv ⊢
      rw [List.pairwise_map]
      refine hinv.imp ?_
      intro a b hab
      have hga : ∀ x : EventRsvp,
          ((if x.userId == uid && x.eventId == eid
            then { x with status := v } else x) : EventRsvp).userId = x.userId ∧
          ((if x.userId == uid && x.eventId == eid
            then { x with status := v } else x) : EventRsvp).eventId = x.eventId := by
        intro x
        by_cases hc : (x.userId == uid && x.eventId == eid) = true <;> simp [hc]
      rcases hab with hne | hne
      · left
        rw [(hga a).1, (hga b).1]
        exact hne
      · right
        rw [(hga a).2, (hga b).2]
        exact hne
    · cases h

/-- **C4**: creating a second `EventRsvp` for an existing
`(userId, eventId)` pair fails with `UniqueConstraintViolation` (no store
results, so nothing changes), while updating the existing row's status to
any `RsvpStatus` succeeds; consequently pair-uniqueness holds in the empty
store and is preserved by every store operation, so every reachable store
has at most one RSVP per pair. -/
theorem c4_rsvp_pair_at_most_one :
    (∀ (s : Store) (r : EventRsvp) (i : EventRsvpCreateInput),
      r ∈ s.eventRsvps → i.userId = r.userId → i.eventId = r.eventId →
      createEventRsvp s i = Except.error DbError.UniqueConstraintViolation) ∧
    (∀ (s : Store) (r : EventRsvp) (v : RsvpStatus), r ∈ s.eventRsvps →
      ∃ s', updateEventRsvpStatus s r.userId r.eventId v = Except.ok s' ∧
        ∀ x ∈ s'.eventRsvps, x.userId = r.userId → x.eventId = r.eventId →
          x.status = v) ∧
    RsvpUnique Store.empty ∧
    (∀ (op : Op) (s s' : Store), RsvpUnique s → applyOp op s = Except.ok s' →
      RsvpUnique s') :=
  ⟨createEventRsvp_duplicate_pair_rejected,
   updateEventRsvpStatus_existing_succeeds,
   List.Pairwise.nil,
   applyOp_preserves_rsvpUnique⟩

/-- An RSVP create input for the pair already taken by `sampleRsvp`. -/
def dupRsvpInput : EventRsvpCreateInput :=
  ⟨"r2", "u1", "e1", none, 5⟩

/-- Witness for C4: the duplicate-pair create is rejected on the concrete
store holding `sampleRsvp`. -/
theorem c4_rsvp_pair_at_most_one_witness :
    sampleRsvp ∈ storeWithRsvp.eventRsvps ∧
    dupRsvpInput.userId = sampleRsvp.userId ∧
    dupRsvpInput.eventId = sampleRsvp.eventId ∧
    createEventRsvp storeWithRsvp dupRsvpInput
      = Except.error DbError.UniqueConstraintViolation :=
  ⟨by simp [storeWithRsvp, storeUserEvent], rfl, rfl,
   c4_rsvp_pair_at_most_one.1 storeWithRsvp sampleRsvp dupRsvpInput
     (by simp [storeWithRsvp, storeUserEvent]) rfl rfl⟩

end Menfem
